import Mathlib

/-!
Shallow embedding of the ShadowTrace shadow-geolocation core
(`src/lib/shadowfinder.ts`, `src/components/ShadowFinderVisualization.tsx`,
`src/pages/Index.tsx`) together with theorems settling the specification
claims about it.

Modelling conventions:
* Latitudes and longitudes are rationals.  Every coordinate the program
  manipulates is an exact multiple of 0.5 produced by repeatedly adding the
  IEEE-exact constant 0.5 to -60.0 / -180.0; each intermediate double is an
  exact half-integer of magnitude at most 180, hence exactly representable,
  so rational arithmetic models the JavaScript float arithmetic faithfully.
* Likelihoods and the measurement inputs are real numbers (`Math.tan` and
  `Math.cos` are modelled by `Real.tan` / `Real.cos`).
* `SunCalc.getPosition(time, lat, lng).altitude` is the external solar
  provider; it is passed in as a function parameter `sunCalcAltitude`.
* A thrown `Error` is modelled as `Except.error` carrying the thrown message.
* A JavaScript `Date` is modelled by the value of `getTime()`: a finite
  number, or `none` for an invalid date (`NaN`).
-/

namespace ShadowTrace

/-- Model of a JavaScript `Date`: the value of `getTime()`, with `none`
standing for `NaN` (an invalid date). -/
structure JsDate where
  time : Option ℚ

/-- `ShadowFinderPoint` (shadowfinder.ts, lines 13-17). -/
structure ShadowFinderPoint where
  lat : ℚ
  lng : ℚ
  likelihood : ℝ

/-- `ShadowAnalysisInput` (shadowfinder.ts, lines 19-23). -/
structure ShadowAnalysisInput where
  objectHeight : ℝ
  shadowLength : ℝ
  knownTime : JsDate

/-- The `mainBandCoordinates` component of `ShadowAnalysisResult`
(shadowfinder.ts, lines 27-30). -/
structure MainBandCoordinates where
  latRange : ℚ × ℚ
  lngRange : ℚ × ℚ

/-- The `statistics` component of `ShadowAnalysisResult`
(shadowfinder.ts, lines 31-38). -/
structure AnalysisStatistics where
  totalPoints : ℕ
  validPoints : ℕ
  nightPoints : ℕ
  ultraTightBandPoints : ℕ
  tightBandPoints : ℕ
  visibleBandPoints : ℕ

/-- `ShadowAnalysisResult` (shadowfinder.ts, lines 25-39). -/
structure ShadowAnalysisResult where
  points : List ShadowFinderPoint
  mainBandCoordinates : MainBandCoordinates
  statistics : AnalysisStatistics

/-- The record returned by `estimateBestLocation` (shadowfinder.ts,
lines 193-197). -/
structure BestLocation where
  latitude : ℚ
  longitude : ℚ
  accuracy : ℝ

/-- An element of the `intersectionPoints` array built in
`ShadowFinderVisualization.tsx` (lines 178-189): the spread of the second
scan's point plus `combinedLikelihood` and the `isIntersection` flag. -/
structure IntersectionPoint where
  lat : ℚ
  lng : ℚ
  likelihood : ℝ
  combinedLikelihood : ℝ
  isIntersection : Bool

/-- One coordinate sweep `for (x = cur; x <= hi; x += 0.5) ...`
(shadowfinder.ts, lines 57-58), listing the visited values in order.
All doubles involved are exact half-integers, so the float loop and this
rational loop visit identical values. -/
def gridSweep (hi : ℚ) (cur : ℚ) : List ℚ :=
  if h : cur ≤ hi then cur :: gridSweep hi (cur + 1/2) else []
termination_by (⌊(hi - cur) * 2⌋ + 1).toNat
decreasing_by
  have h2 : (0 : ℤ) ≤ ⌊(hi - cur) * 2⌋ :=
    Int.floor_nonneg.mpr (mul_nonneg (sub_nonneg.mpr h) (by norm_num))
  have h3 : ⌊(hi - (cur + 1/2)) * 2⌋ = ⌊(hi - cur) * 2⌋ - 1 := by
    have e : (hi - (cur + 1/2)) * 2 = (hi - cur) * 2 - ((1 : ℤ) : ℚ) := by push_cast; ring
    rw [e, Int.floor_sub_int]
  simp only [h3]
  omega

/-- The likelihood computed for one grid sample: the body of the double loop
in `generateShadowFinderGrid` (shadowfinder.ts, lines 59-78). -/
noncomputable def pointLikelihood (sunAltitudeRad objectHeight shadowLength : ℝ) : ℝ :=
  if sunAltitudeRad ≤ 0 then -1
  else |(objectHeight / Real.tan sunAltitudeRad - shadowLength) / shadowLength|

/-- `generateShadowFinderGrid` (shadowfinder.ts, lines 45-89): a row-major
double loop, latitude -60.0 to 84.5 outer, longitude -180.0 to 179.5 inner,
step 0.5, scoring each sample with `pointLikelihood`. -/
noncomputable def generateShadowFinderGrid (sunCalcAltitude : JsDate → ℚ → ℚ → ℝ)
    (knownTime : JsDate) (objectHeight shadowLength : ℝ) : List ShadowFinderPoint :=
  (gridSweep 84.5 (-60)).flatMap fun lat =>
    (gridSweep 179.5 (-180)).map fun lng =>
      { lat := lat, lng := lng,
        likelihood := pointLikelihood (sunCalcAltitude knownTime lat lng) objectHeight shadowLength }

/-- The grid cell scored at row `i`, column `j`. -/
noncomputable def gridCellPoint (sc : JsDate → ℚ → ℚ → ℝ) (t : JsDate) (H S : ℝ)
    (i j : ℕ) : ShadowFinderPoint :=
  { lat := -60 + (i : ℚ) * (1/2), lng := -180 + (j : ℚ) * (1/2),
    likelihood := pointLikelihood (sc t (-60 + (i : ℚ) * (1/2)) (-180 + (j : ℚ) * (1/2))) H S }

/-- `Math.min(...xs)` on a nonempty array (the sources only apply the spread
form under a nonemptiness guard; the `[]` case is junk and never reached). -/
def mathMin : List ℚ → ℚ
  | [] => 0
  | a :: t => t.foldl min a

/-- `Math.max(...xs)` on a nonempty array, cf. `mathMin`. -/
def mathMax : List ℚ → ℚ
  | [] => 0
  | a :: t => t.foldl max a

open Classical in
/-- The successful payload of `analyzeShadowMeasurements` (shadowfinder.ts,
lines 104-150): the grid, the band statistics and the main-band
coordinate ranges. -/
noncomputable def analysisResultOf (sunCalcAltitude : JsDate → ℚ → ℚ → ℝ)
    (knownTime : JsDate) (objectHeight shadowLength : ℝ) : ShadowAnalysisResult :=
  let points := generateShadowFinderGrid sunCalcAltitude knownTime objectHeight shadowLength
  let nightPoints := (points.filter fun p => decide (p.likelihood = -1)).length
  let validPoints := (points.filter fun p => decide (p.likelihood ≠ -1)).length
  let ultraTightBandPoints :=
    (points.filter fun p => decide (0 ≤ p.likelihood ∧ p.likelihood ≤ 0.05)).length
  let tightBandPoints :=
    (points.filter fun p => decide (0 ≤ p.likelihood ∧ p.likelihood ≤ 0.08)).length
  let visibleBandPoints :=
    (points.filter fun p => decide (0 ≤ p.likelihood ∧ p.likelihood ≤ 0.15)).length
  let mainBandPoints := points.filter fun p => decide (0 ≤ p.likelihood ∧ p.likelihood ≤ 0.1)
  let latRange : ℚ × ℚ :=
    if 0 < mainBandPoints.length then
      (mathMin (mainBandPoints.map (·.lat)), mathMax (mainBandPoints.map (·.lat)))
    else (0, 0)
  let lngRange : ℚ × ℚ :=
    if 0 < mainBandPoints.length then
      (mathMin (mainBandPoints.map (·.lng)), mathMax (mainBandPoints.map (·.lng)))
    else (0, 0)
  { points := points
    mainBandCoordinates := { latRange := latRange, lngRange := lngRange }
    statistics :=
      { totalPoints := points.length
        validPoints := validPoints
        nightPoints := nightPoints
        ultraTightBandPoints := ultraTightBandPoints
        tightBandPoints := tightBandPoints
        visibleBandPoints := visibleBandPoints } }

open Classical in
/-- `analyzeShadowMeasurements` (shadowfinder.ts, lines 94-151).  The two
`throw` statements become `Except.error` with the thrown message;
`isNaN(input.knownTime.getTime())` is `input.knownTime.time = none`. -/
noncomputable def analyzeShadowMeasurements (sunCalcAltitude : JsDate → ℚ → ℚ → ℝ)
    (input : ShadowAnalysisInput) : Except String ShadowAnalysisResult :=
  if input.objectHeight ≤ 0 ∨ input.shadowLength ≤ 0 then
    .error "Invalid measurements: object height and shadow length must be positive"
  else if input.knownTime.time = none then
    .error "Invalid date/time provided"
  else
    .ok (analysisResultOf sunCalcAltitude input.knownTime input.objectHeight input.shadowLength)

open Classical in
/-- `estimateBestLocation` (shadowfinder.ts, lines 193-223): filter to
likelihood in [0, 0.1], sort ascending by likelihood, then centroid and
spread-based accuracy with a 1 km floor. -/
noncomputable def estimateBestLocation (result : ShadowAnalysisResult) :
    Except String BestLocation :=
  let bestPoints :=
    (result.points.filter fun p => decide (0 ≤ p.likelihood ∧ p.likelihood ≤ 0.1)).mergeSort
      fun a b => decide (a.likelihood ≤ b.likelihood)
  if bestPoints.length = 0 then
    .error "No suitable location matches found"
  else
    let avgLat := (bestPoints.map (·.lat)).sum / (bestPoints.length : ℚ)
    let avgLng := (bestPoints.map (·.lng)).sum / (bestPoints.length : ℚ)
    let latSpread := mathMax (bestPoints.map (·.lat)) - mathMin (bestPoints.map (·.lat))
    let lngSpread := mathMax (bestPoints.map (·.lng)) - mathMin (bestPoints.map (·.lng))
    let accuracy :=
      max ((latSpread : ℝ) * 111)
        ((lngSpread : ℝ) * 111 * Real.cos ((avgLat : ℝ) * Real.pi / 180)) / 2
    .ok { latitude := avgLat, longitude := avgLng, accuracy := max accuracy 1 }

open Classical in
/-- The main-band filter `p.likelihood >= 0 && p.likelihood <= 0.1` shared by
`analyzeShadowMeasurements` (shadowfinder.ts, line 115) and
`estimateBestLocation` (line 200). -/
noncomputable def mainBandOf (pts : List ShadowFinderPoint) : List ShadowFinderPoint :=
  pts.filter fun p => decide (0 ≤ p.likelihood ∧ p.likelihood ≤ 0.1)

/-- The lookup key `` `${lat.toFixed(1)},${lng.toFixed(1)}` `` of
`ShadowFinderVisualization.tsx` (lines 173, 180), modelled as the pair of
first-decimal quantizations.  On the coordinates actually keyed (exact
multiples of 0.5) `toFixed(1)` is exact, and two such coordinates produce
the same string precisely when their quantizations here coincide. -/
def coordKey (lat lng : ℚ) : ℤ × ℤ :=
  (round (lat * 10), round (lng * 10))

open Classical in
/-- The visible-subset filter `d.likelihood !== -1 && d.likelihood <= 0.15`
(ShadowFinderVisualization.tsx, lines 118-120 and 166-168). -/
noncomputable def visibleFilter (pts : List ShadowFinderPoint) : List ShadowFinderPoint :=
  pts.filter fun d => decide (d.likelihood ≠ -1 ∧ d.likelihood ≤ 0.15)

/-- The `firstPointsMap` lookup (ShadowFinderVisualization.tsx, lines
171-175): a JS `Map` filled by `set` in array order, so a later point with
the same key overwrites an earlier one. -/
def firstPointsMap (firstVisiblePoints : List ShadowFinderPoint) :
    ℤ × ℤ → Option ShadowFinderPoint :=
  firstVisiblePoints.foldl
    (fun m point => Function.update m (coordKey point.lat point.lng) (some point))
    fun _ => none

/-- The `intersectionPoints` computation (ShadowFinderVisualization.tsx,
lines 118-189, intersection mode): both scans reduced to their visible
subsets, the first indexed by coordinate key, and every visible second-scan
point with a same-keyed counterpart emitted with
`combinedLikelihood = Math.max(first, second)`. -/
noncomputable def intersectionPoints (firstPoints secondPoints : List ShadowFinderPoint) :
    List IntersectionPoint :=
  let firstVisiblePoints := visibleFilter firstPoints
  let secondVisiblePoints := visibleFilter secondPoints
  let m := firstPointsMap firstVisiblePoints
  secondVisiblePoints.filterMap fun secondPoint =>
    (m (coordKey secondPoint.lat secondPoint.lng)).map fun firstPoint =>
      { lat := secondPoint.lat, lng := secondPoint.lng,
        likelihood := secondPoint.likelihood,
        combinedLikelihood := max firstPoint.likelihood secondPoint.likelihood,
        isIntersection := true }

/-- Everything the program derives from a completed pair of scans in
two-photo mode: per-photo best-location estimates (Index.tsx, lines 213-216,
one `estimateBestLocation` call per photo) and the intersection point list
computed by the visualization.  No other artifact is derived from the pair. -/
noncomputable def twoPhotoAnalysis (first second : ShadowAnalysisResult) :
    Except String BestLocation × Except String BestLocation × List IntersectionPoint :=
  (estimateBestLocation first, estimateBestLocation second,
    intersectionPoints first.points second.points)

/-- Membership in the fixed 290 x 720 sampling grid. -/
def isGridCell (lat lng : ℚ) : Prop :=
  (∃ i : ℕ, i < 290 ∧ lat = -60 + (i : ℚ) * (1/2)) ∧
    (∃ j : ℕ, j < 720 ∧ lng = -180 + (j : ℚ) * (1/2))

open Classical in
/-- Modelled from the spec, §4.5 with §4.4: the LocationEstimator algorithm
applied to `combinedLikelihood` over the intersection point set, which the
spec says yields the joint best estimate.  No function of the repository
implements this; it is stated here only to compare against what the code
actually does. -/
noncomputable def specJointBestEstimate (ips : List IntersectionPoint) :
    Except String BestLocation :=
  let best :=
    (ips.filter fun p => decide (0 ≤ p.combinedLikelihood ∧ p.combinedLikelihood ≤ 0.1)).mergeSort
      fun a b => decide (a.combinedLikelihood ≤ b.combinedLikelihood)
  if best.length = 0 then
    .error "No suitable location matches found"
  else
    let avgLat := (best.map (·.lat)).sum / (best.length : ℚ)
    let avgLng := (best.map (·.lng)).sum / (best.length : ℚ)
    let latSpread := mathMax (best.map (·.lat)) - mathMin (best.map (·.lat))
    let lngSpread := mathMax (best.map (·.lng)) - mathMin (best.map (·.lng))
    let accuracy :=
      max ((latSpread : ℝ) * 111)
        ((lngSpread : ℝ) * 111 * Real.cos ((avgLat : ℝ) * Real.pi / 180)) / 2
    .ok { latitude := avgLat, longitude := avgLng, accuracy := max accuracy 1 }

/-- Solar provider for the two-photo counterexample.  At the photo-1
timestamp (getTime() = 0): sun at 45 degrees along the latitude -60 row, at
arctan(25/28) along the latitude 0 row, below the horizon everywhere else.
At any other timestamp (photo 2 uses getTime() = 1): sun at 45 degrees
along the latitude 0 row, below the horizon everywhere else. -/
noncomputable def altC : JsDate → ℚ → ℚ → ℝ := fun t lat _ =>
  if t.time = some 0 then
    (if lat = -60 then Real.pi / 4 else if lat = 0 then Real.arctan (25/28) else -1)
  else
    (if lat = 0 then Real.pi / 4 else -1)

/-! ### Helper lemmas about the sweep and the grid -/

theorem gridSweep_of_le (hi cur : ℚ) (h : cur ≤ hi) :
    gridSweep hi cur = cur :: gridSweep hi (cur + 1/2) := by
  rw [gridSweep]
  exact dif_pos h

theorem gridSweep_of_gt (hi cur : ℚ) (h : ¬ cur ≤ hi) : gridSweep hi cur = [] := by
  rw [gridSweep]
  exact dif_neg h

theorem gridSweep_eq_map_range (n : ℕ) :
    ∀ cur hi : ℚ, cur + n * (1/2) ≤ hi → hi < cur + n * (1/2) + 1/2 →
      gridSweep hi cur = (List.range (n+1)).map fun i : ℕ => cur + (i : ℚ) * (1/2) := by
  induction n with
  | zero =>
    intro cur hi h1 h2
    rw [gridSweep_of_le hi cur (by push_cast at h1; linarith),
        gridSweep_of_gt hi (cur + 1/2) (by push_cast at h2; intro hc; linarith)]
    simp [List.range_succ]
  | succ n ih =>
    intro cur hi h1 h2
    have hc : cur ≤ hi := by
      have hn : (0 : ℚ) ≤ ((n : ℚ) + 1) * (1/2) := by positivity
      push_cast at h1
      linarith
    have hr : (List.range (n+1+1)).map (fun i : ℕ => cur + (i : ℚ) * (1/2)) =
        cur :: (List.range (n+1)).map (fun i : ℕ => cur + 1/2 + (i : ℚ) * (1/2)) := by
      rw [List.range_succ_eq_map]
      simp only [List.map_cons, List.map_map]
      refine congrArg₂ List.cons (by norm_num) ?_
      refine List.map_congr_left fun i _ => ?_
      simp only [Function.comp_apply]
      push_cast
      ring
    rw [gridSweep_of_le hi cur hc,
        ih (cur + 1/2) hi (by push_cast at h1 ⊢; linarith) (by push_cast at h2 ⊢; linarith),
        hr]

theorem latSweep_eq :
    gridSweep 84.5 (-60) = (List.range 290).map fun i : ℕ => -60 + (i : ℚ) * (1/2) := by
  have h := gridSweep_eq_map_range 289 (-60) 84.5 (by norm_num) (by norm_num)
  exact h

theorem lngSweep_eq :
    gridSweep 179.5 (-180) = (List.range 720).map fun i : ℕ => -180 + (i : ℚ) * (1/2) := by
  have h := gridSweep_eq_map_range 719 (-180) 179.5 (by norm_num) (by norm_num)
  exact h

theorem generateShadowFinderGrid_eq (sc : JsDate → ℚ → ℚ → ℝ) (t : JsDate) (H S : ℝ) :
    generateShadowFinderGrid sc t H S =
      (List.range 290).flatMap fun i => (List.range 720).map fun j =>
        gridCellPoint sc t H S i j := by
  rw [generateShadowFinderGrid, latSweep_eq, lngSweep_eq]
  simp only [List.flatMap_map, List.map_map]
  rfl

theorem generateShadowFinderGrid_length (sc : JsDate → ℚ → ℚ → ℝ) (t : JsDate) (H S : ℝ) :
    (generateShadowFinderGrid sc t H S).length = 208800 := by
  rw [generateShadowFinderGrid_eq, List.length_flatMap]
  have h : ∀ i ∈ List.range 290,
      (List.length ∘ fun i => List.map (fun j => gridCellPoint sc t H S i j) (List.range 720)) i
        = 720 := fun i _ => by simp
  rw [List.map_congr_left h, List.map_const', List.sum_replicate]
  norm_num

theorem mem_generateShadowFinderGrid (sc : JsDate → ℚ → ℚ → ℝ) (t : JsDate) (H S : ℝ)
    (p : ShadowFinderPoint) :
    p ∈ generateShadowFinderGrid sc t H S ↔
      ∃ i : ℕ, i < 290 ∧ ∃ j : ℕ, j < 720 ∧ p = gridCellPoint sc t H S i j := by
  rw [generateShadowFinderGrid_eq]
  simp only [List.mem_flatMap, List.mem_map, List.mem_range]
  constructor
  · rintro ⟨i, hi, j, hj, rfl⟩
    exact ⟨i, hi, j, hj, rfl⟩
  · rintro ⟨i, hi, j, hj, rfl⟩
    exact ⟨i, hi, j, hj, rfl⟩

theorem gridCellPoint_mem (sc : JsDate → ℚ → ℚ → ℝ) (t : JsDate) (H S : ℝ)
    (i j : ℕ) (hi : i < 290) (hj : j < 720) :
    gridCellPoint sc t H S i j ∈ generateShadowFinderGrid sc t H S := by
  rw [mem_generateShadowFinderGrid]
  exact ⟨i, hi, j, hj, rfl⟩

theorem natCast_half_inj {i i' : ℕ} (h : (i : ℚ) * (1/2) = (i' : ℚ) * (1/2)) : i = i' := by
  have : (i : ℚ) = i' := by linarith
  exact_mod_cast this

theorem grid_likelihood_of_mem (sc : JsDate → ℚ → ℚ → ℝ) (t : JsDate) (H S : ℝ)
    (p : ShadowFinderPoint) (hp : p ∈ generateShadowFinderGrid sc t H S) :
    p.likelihood = pointLikelihood (sc t p.lat p.lng) H S := by
  obtain ⟨i, _, j, _, rfl⟩ := (mem_generateShadowFinderGrid sc t H S p).mp hp
  rfl

theorem grid_cell_of_mem (sc : JsDate → ℚ → ℚ → ℝ) (t : JsDate) (H S : ℝ)
    (p : ShadowFinderPoint) (hp : p ∈ generateShadowFinderGrid sc t H S) :
    isGridCell p.lat p.lng := by
  obtain ⟨i, hi, j, hj, rfl⟩ := (mem_generateShadowFinderGrid sc t H S p).mp hp
  exact ⟨⟨i, hi, rfl⟩, ⟨j, hj, rfl⟩⟩

theorem grid_bounds_of_cell (lat lng : ℚ) (h : isGridCell lat lng) :
    -60 ≤ lat ∧ lat ≤ 84.5 ∧ -180 ≤ lng ∧ lng ≤ 179.5 := by
  obtain ⟨⟨i, hi, rfl⟩, ⟨j, hj, rfl⟩⟩ := h
  have hi' : (i : ℚ) ≤ 289 := by exact_mod_cast Nat.lt_succ_iff.mp hi
  have hj' : (j : ℚ) ≤ 719 := by exact_mod_cast Nat.lt_succ_iff.mp hj
  have hi0 : (0 : ℚ) ≤ (i : ℚ) := by positivity
  have hj0 : (0 : ℚ) ≤ (j : ℚ) := by positivity
  refine ⟨by linarith, by norm_num; linarith, by linarith, by norm_num; linarith⟩

/-! ### Helper lemmas about the likelihood, the coordinate key and the map -/

theorem pointLikelihood_of_nonpos (alt H S : ℝ) (h : alt ≤ 0) :
    pointLikelihood alt H S = -1 := by
  rw [pointLikelihood, if_pos h]

theorem pointLikelihood_of_pos (alt H S : ℝ) (h : 0 < alt) :
    pointLikelihood alt H S = |(H / Real.tan alt - S) / S| := by
  rw [pointLikelihood, if_neg (not_le.mpr h)]

theorem pointLikelihood_ne_neg_one_iff (alt H S : ℝ) :
    pointLikelihood alt H S ≠ -1 ↔ 0 < alt := by
  constructor
  · intro h
    by_contra h2
    exact h (pointLikelihood_of_nonpos alt H S (not_lt.mp h2))
  · intro h he
    rw [pointLikelihood_of_pos alt H S h] at he
    have := abs_nonneg ((H / Real.tan alt - S) / S)
    rw [he] at this
    linarith

theorem coordKey_cell (i j : ℕ) :
    coordKey (-60 + (i : ℚ) * (1/2)) (-180 + (j : ℚ) * (1/2)) =
      (-600 + 5 * (i : ℤ), -1800 + 5 * (j : ℤ)) := by
  have h1 : (-60 + (i : ℚ) * (1/2)) * 10 = ((-600 + 5 * (i : ℤ) : ℤ) : ℚ) := by
    push_cast
    ring
  have h2 : (-180 + (j : ℚ) * (1/2)) * 10 = ((-1800 + 5 * (j : ℤ) : ℤ) : ℚ) := by
    push_cast
    ring
  rw [coordKey, h1, h2, round_intCast, round_intCast]

theorem coordKey_cell_inj {lat lng lat' lng' : ℚ} (h : isGridCell lat lng)
    (h' : isGridCell lat' lng') (hk : coordKey lat lng = coordKey lat' lng') :
    lat = lat' ∧ lng = lng' := by
  obtain ⟨⟨i, hi, rfl⟩, ⟨j, hj, rfl⟩⟩ := h
  obtain ⟨⟨i', hi', rfl⟩, ⟨j', hj', rfl⟩⟩ := h'
  rw [coordKey_cell, coordKey_cell, Prod.mk.injEq] at hk
  obtain ⟨hk1, hk2⟩ := hk
  have hii : i = i' := by omega
  have hjj : j = j' := by omega
  subst hii
  subst hjj
  exact ⟨rfl, rfl⟩

theorem mem_visibleFilter (pts : List ShadowFinderPoint) (p : ShadowFinderPoint) :
    p ∈ visibleFilter pts ↔ p ∈ pts ∧ p.likelihood ≠ -1 ∧ p.likelihood ≤ 0.15 := by
  simp [visibleFilter, List.mem_filter]

theorem foldl_update_apply (pts : List ShadowFinderPoint) :
    ∀ (m0 : ℤ × ℤ → Option ShadowFinderPoint) (k : ℤ × ℤ),
      (pts.foldl (fun m point => Function.update m (coordKey point.lat point.lng) (some point))
          m0) k =
        ((pts.reverse.find? fun p => decide (coordKey p.lat p.lng = k)).elim (m0 k) some) := by
  induction pts with
  | nil =>
    intro m0 k
    simp
  | cons p rest ih =>
    intro m0 k
    rw [List.foldl_cons, ih, List.reverse_cons, List.find?_append]
    cases hfind : rest.reverse.find? (fun q => decide (coordKey q.lat q.lng = k)) with
    | some q => simp
    | none =>
      by_cases hk : coordKey p.lat p.lng = k
      · simp [List.find?, hk, Function.update_apply]
      · have hk' : ¬ (k = coordKey p.lat p.lng) := fun e => hk e.symm
        simp [List.find?, hk, hk', Function.update_apply]

theorem firstPointsMap_apply (pts : List ShadowFinderPoint) (k : ℤ × ℤ) :
    firstPointsMap pts k = pts.reverse.find? fun p => decide (coordKey p.lat p.lng = k) := by
  rw [firstPointsMap, foldl_update_apply]
  cases pts.reverse.find? fun p => decide (coordKey p.lat p.lng = k) <;> rfl

theorem mem_intersectionPoints (first second : List ShadowFinderPoint)
    (ip : IntersectionPoint) :
    ip ∈ intersectionPoints first second ↔
      ∃ sp, sp ∈ visibleFilter second ∧ ∃ fp,
        firstPointsMap (visibleFilter first) (coordKey sp.lat sp.lng) = some fp ∧
        ip = { lat := sp.lat, lng := sp.lng, likelihood := sp.likelihood,
               combinedLikelihood := max fp.likelihood sp.likelihood,
               isIntersection := true } := by
  rw [intersectionPoints]
  simp only [List.mem_filterMap, Option.map_eq_some']
  constructor
  · rintro ⟨sp, hsp, fp, hfp, rfl⟩
    exact ⟨sp, hsp, fp, hfp, rfl⟩
  · rintro ⟨sp, hsp, fp, hfp, rfl⟩
    exact ⟨sp, hsp, fp, hfp, rfl⟩

/-! ### Helper lemmas about `mathMin`, `mathMax` and list means -/

theorem foldl_min_spec (t : List ℚ) :
    ∀ a : ℚ, t.foldl min a ∈ a :: t ∧ t.foldl min a ≤ a ∧ ∀ x ∈ t, t.foldl min a ≤ x := by
  induction t with
  | nil =>
    intro a
    simp
  | cons b t' ih =>
    intro a
    rw [List.foldl_cons]
    obtain ⟨hmem, hle, hall⟩ := ih (min a b)
    refine ⟨?_, ?_, ?_⟩
    · rcases List.mem_cons.mp hmem with h | h
      · rcases min_choice a b with hc | hc
        · rw [List.mem_cons]
          exact Or.inl (h.trans hc)
        · rw [List.mem_cons, List.mem_cons]
          exact Or.inr (Or.inl (h.trans hc))
      · exact List.mem_cons_of_mem _ (List.mem_cons_of_mem _ h)
    · exact le_trans hle (min_le_left a b)
    · intro x hx
      rcases List.mem_cons.mp hx with h | h
      · rw [h]
        exact le_trans hle (min_le_right a b)
      · exact hall x h

theorem foldl_max_spec (t : List ℚ) :
    ∀ a : ℚ, t.foldl max a ∈ a :: t ∧ a ≤ t.foldl max a ∧ ∀ x ∈ t, x ≤ t.foldl max a := by
  induction t with
  | nil =>
    intro a
    simp
  | cons b t' ih =>
    intro a
    rw [List.foldl_cons]
    obtain ⟨hmem, hle, hall⟩ := ih (max a b)
    refine ⟨?_, ?_, ?_⟩
    · rcases List.mem_cons.mp hmem with h | h
      · rcases max_choice a b with hc | hc
        · rw [List.mem_cons]
          exact Or.inl (h.trans hc)
        · rw [List.mem_cons, List.mem_cons]
          exact Or.inr (Or.inl (h.trans hc))
      · exact List.mem_cons_of_mem _ (List.mem_cons_of_mem _ h)
    · exact le_trans (le_max_left a b) hle
    · intro x hx
      rcases List.mem_cons.mp hx with h | h
      · rw [h]
        exact le_trans (le_max_right a b) hle
      · exact hall x h

theorem mathMin_mem (l : List ℚ) (h : l ≠ []) : mathMin l ∈ l := by
  cases l with
  | nil => exact absurd rfl h
  | cons a t => exact (foldl_min_spec t a).1

theorem mathMin_le (l : List ℚ) : ∀ x ∈ l, mathMin l ≤ x := by
  cases l with
  | nil => simp
  | cons a t =>
    intro x hx
    rcases List.mem_cons.mp hx with h | h
    · exact h ▸ (foldl_min_spec t a).2.1
    · exact (foldl_min_spec t a).2.2 x h

theorem le_mathMax (l : List ℚ) : ∀ x ∈ l, x ≤ mathMax l := by
  cases l with
  | nil => simp
  | cons a t =>
    intro x hx
    rcases List.mem_cons.mp hx with h | h
    · exact h ▸ (foldl_max_spec t a).2.1
    · exact (foldl_max_spec t a).2.2 x h

theorem mathMax_mem (l : List ℚ) (h : l ≠ []) : mathMax l ∈ l := by
  cases l with
  | nil => exact absurd rfl h
  | cons a t => exact (foldl_max_spec t a).1

theorem mathMin_perm {l l' : List ℚ} (hp : l.Perm l') : mathMin l = mathMin l' := by
  rcases eq_or_ne l [] with rfl | h
  · rw [hp.symm.eq_nil]
  · have h' : l' ≠ [] := fun e => h (List.Perm.eq_nil (e ▸ hp))
    exact le_antisymm
      (mathMin_le l (mathMin l') (hp.mem_iff.mpr (mathMin_mem l' h')))
      (mathMin_le l' (mathMin l) (hp.mem_iff.mp (mathMin_mem l h)))

theorem mathMax_perm {l l' : List ℚ} (hp : l.Perm l') : mathMax l = mathMax l' := by
  rcases eq_or_ne l [] with rfl | h
  · rw [hp.symm.eq_nil]
  · have h' : l' ≠ [] := fun e => h (List.Perm.eq_nil (e ▸ hp))
    exact le_antisymm
      (le_mathMax l' (mathMax l) (hp.mem_iff.mp (mathMax_mem l h)))
      (le_mathMax l (mathMax l') (hp.mem_iff.mpr (mathMax_mem l' h')))

theorem list_avg_bounds {l : List ℚ} {a b : ℚ} (h : l ≠ [])
    (hb : ∀ x ∈ l, a ≤ x ∧ x ≤ b) :
    a ≤ l.sum / l.length ∧ l.sum / l.length ≤ b := by
  have hpos : 0 < (l.length : ℚ) := by
    have := List.length_pos.mpr h
    exact_mod_cast this
  have h1 : l.length • a ≤ l.sum := List.card_nsmul_le_sum l a fun x hx => (hb x hx).1
  have h2 : l.sum ≤ l.length • b := List.sum_le_card_nsmul l b fun x hx => (hb x hx).2
  rw [nsmul_eq_mul] at h1 h2
  constructor
  · rw [le_div_iff₀ hpos]
    linarith
  · rw [div_le_iff₀ hpos]
    linarith

/-! ### Helper lemmas about `estimateBestLocation` -/

theorem mem_mainBandOf (pts : List ShadowFinderPoint) (p : ShadowFinderPoint) :
    p ∈ mainBandOf pts ↔ p ∈ pts ∧ (0 ≤ p.likelihood ∧ p.likelihood ≤ 0.1) := by
  simp [mainBandOf, List.mem_filter]

theorem mainBandOf_ne_nil_iff (pts : List ShadowFinderPoint) :
    mainBandOf pts ≠ [] ↔ ∃ p ∈ pts, 0 ≤ p.likelihood ∧ p.likelihood ≤ 0.1 := by
  simp only [mainBandOf, ne_eq, List.filter_eq_nil_iff, decide_eq_true_eq]
  push_neg
  rfl

open Classical in
theorem estimateBestLocation_eq_error_iff (result : ShadowAnalysisResult) :
    estimateBestLocation result = .error "No suitable location matches found" ↔
      mainBandOf result.points = [] := by
  simp only [estimateBestLocation, mainBandOf]
  set F := result.points.filter fun p => decide (0 ≤ p.likelihood ∧ p.likelihood ≤ 0.1) with hF
  have hlen : (F.mergeSort fun a b => decide (a.likelihood ≤ b.likelihood)).length = F.length :=
    (List.mergeSort_perm F _).length_eq
  split_ifs with hc
  · rw [hlen] at hc
    simp [List.length_eq_zero.mp hc]
  · rw [hlen] at hc
    have hne : F ≠ [] := fun e => hc (by rw [e]; rfl)
    simp [hne]

open Classical in
theorem estimateBestLocation_isOk_iff (result : ShadowAnalysisResult) :
    (∃ est, estimateBestLocation result = .ok est) ↔ mainBandOf result.points ≠ [] := by
  simp only [estimateBestLocation, mainBandOf]
  set F := result.points.filter fun p => decide (0 ≤ p.likelihood ∧ p.likelihood ≤ 0.1) with hF
  have hlen : (F.mergeSort fun a b => decide (a.likelihood ≤ b.likelihood)).length = F.length :=
    (List.mergeSort_perm F _).length_eq
  split_ifs with hc
  · rw [hlen] at hc
    simp [List.length_eq_zero.mp hc]
  · rw [hlen] at hc
    have hne : F ≠ [] := fun e => hc (by rw [e]; rfl)
    simp [hne]

open Classical in
theorem estimateBestLocation_ok_char (result : ShadowAnalysisResult)
    (h : mainBandOf result.points ≠ []) :
    estimateBestLocation result = .ok
      { latitude := ((mainBandOf result.points).map (·.lat)).sum /
          ((mainBandOf result.points).length : ℚ)
        longitude := ((mainBandOf result.points).map (·.lng)).sum /
          ((mainBandOf result.points).length : ℚ)
        accuracy := max
          (max
            (((mathMax ((mainBandOf result.points).map (·.lat)) -
                mathMin ((mainBandOf result.points).map (·.lat)) : ℚ) : ℝ) * 111)
            (((mathMax ((mainBandOf result.points).map (·.lng)) -
                mathMin ((mainBandOf result.points).map (·.lng)) : ℚ) : ℝ) * 111 *
              Real.cos (((((mainBandOf result.points).map (·.lat)).sum /
                  ((mainBandOf result.points).length : ℚ) : ℚ) : ℝ) * Real.pi / 180)) / 2)
          1 } := by
  simp only [estimateBestLocation, mainBandOf] at h ⊢
  set F := result.points.filter fun p => decide (0 ≤ p.likelihood ∧ p.likelihood ≤ 0.1) with hF
  set L := fun a b : ShadowFinderPoint => decide (a.likelihood ≤ b.likelihood) with hL
  have hperm : (F.mergeSort L).Perm F := List.mergeSort_perm F L
  have hlen : (F.mergeSort L).length = F.length := hperm.length_eq
  have hslat : ((F.mergeSort L).map (·.lat)).sum = (F.map (·.lat)).sum :=
    (hperm.map (·.lat)).sum_eq
  have hslng : ((F.mergeSort L).map (·.lng)).sum = (F.map (·.lng)).sum :=
    (hperm.map (·.lng)).sum_eq
  have hmaxlat : mathMax ((F.mergeSort L).map (·.lat)) = mathMax (F.map (·.lat)) :=
    mathMax_perm (hperm.map (·.lat))
  have hminlat : mathMin ((F.mergeSort L).map (·.lat)) = mathMin (F.map (·.lat)) :=
    mathMin_perm (hperm.map (·.lat))
  have hmaxlng : mathMax ((F.mergeSort L).map (·.lng)) = mathMax (F.map (·.lng)) :=
    mathMax_perm (hperm.map (·.lng))
  have hminlng : mathMin ((F.mergeSort L).map (·.lng)) = mathMin (F.map (·.lng)) :=
    mathMin_perm (hperm.map (·.lng))
  have hne : ¬ (F.mergeSort L).length = 0 := by
    rw [hlen]
    exact fun e => h (List.length_eq_zero.mp e)
  rw [if_neg hne, hslat, hslng, hlen, hmaxlat, hminlat, hmaxlng, hminlng]

/-! ### Helper lemmas about `analyzeShadowMeasurements` -/

theorem analyzeShadowMeasurements_ok (sc : JsDate → ℚ → ℚ → ℝ) (input : ShadowAnalysisInput)
    (h1 : 0 < input.objectHeight) (h2 : 0 < input.shadowLength)
    (h3 : input.knownTime.time ≠ none) :
    analyzeShadowMeasurements sc input =
      .ok (analysisResultOf sc input.knownTime input.objectHeight input.shadowLength) := by
  rw [analyzeShadowMeasurements,
    if_neg (not_or.mpr ⟨not_le.mpr h1, not_le.mpr h2⟩), if_neg h3]

theorem analyzeShadowMeasurements_measurement_error_iff (sc : JsDate → ℚ → ℚ → ℝ)
    (input : ShadowAnalysisInput) :
    analyzeShadowMeasurements sc input =
        .error "Invalid measurements: object height and shadow length must be positive" ↔
      input.objectHeight ≤ 0 ∨ input.shadowLength ≤ 0 := by
  rw [analyzeShadowMeasurements]
  split_ifs with hm ht
  · simp [hm]
  · simp [hm]
  · simp [hm]

theorem analyzeShadowMeasurements_timestamp_error_iff (sc : JsDate → ℚ → ℚ → ℝ)
    (input : ShadowAnalysisInput) :
    analyzeShadowMeasurements sc input = .error "Invalid date/time provided" ↔
      ¬ (input.objectHeight ≤ 0 ∨ input.shadowLength ≤ 0) ∧ input.knownTime.time = none := by
  rw [analyzeShadowMeasurements]
  split_ifs with hm ht
  · simp [hm]
  · simp [hm, ht]
  · simp [hm, ht]

theorem analysisResultOf_points (sc : JsDate → ℚ → ℚ → ℝ) (t : JsDate) (H S : ℝ) :
    (analysisResultOf sc t H S).points = generateShadowFinderGrid sc t H S := rfl

open Classical in
theorem analysisResultOf_ultra (sc : JsDate → ℚ → ℚ → ℝ) (t : JsDate) (H S : ℝ) :
    (analysisResultOf sc t H S).statistics.ultraTightBandPoints =
      ((generateShadowFinderGrid sc t H S).filter fun p =>
        decide (0 ≤ p.likelihood ∧ p.likelihood ≤ 0.05)).length := rfl

open Classical in
theorem analysisResultOf_tight (sc : JsDate → ℚ → ℚ → ℝ) (t : JsDate) (H S : ℝ) :
    (analysisResultOf sc t H S).statistics.tightBandPoints =
      ((generateShadowFinderGrid sc t H S).filter fun p =>
        decide (0 ≤ p.likelihood ∧ p.likelihood ≤ 0.08)).length := rfl

open Classical in
theorem analysisResultOf_visible (sc : JsDate → ℚ → ℚ → ℝ) (t : JsDate) (H S : ℝ) :
    (analysisResultOf sc t H S).statistics.visibleBandPoints =
      ((generateShadowFinderGrid sc t H S).filter fun p =>
        decide (0 ≤ p.likelihood ∧ p.likelihood ≤ 0.15)).length := rfl

theorem analysisResultOf_latRange (sc : JsDate → ℚ → ℚ → ℝ) (t : JsDate) (H S : ℝ) :
    (analysisResultOf sc t H S).mainBandCoordinates.latRange =
      if 0 < (mainBandOf (generateShadowFinderGrid sc t H S)).length then
        (mathMin ((mainBandOf (generateShadowFinderGrid sc t H S)).map (·.lat)),
          mathMax ((mainBandOf (generateShadowFinderGrid sc t H S)).map (·.lat)))
      else (0, 0) := rfl

theorem analysisResultOf_lngRange (sc : JsDate → ℚ → ℚ → ℝ) (t : JsDate) (H S : ℝ) :
    (analysisResultOf sc t H S).mainBandCoordinates.lngRange =
      if 0 < (mainBandOf (generateShadowFinderGrid sc t H S)).length then
        (mathMin ((mainBandOf (generateShadowFinderGrid sc t H S)).map (·.lng)),
          mathMax ((mainBandOf (generateShadowFinderGrid sc t H S)).map (·.lng)))
      else (0, 0) := rfl

/-! ### Helper lemmas about the intersection of two grid scans -/

theorem grid_point_unique (sc : JsDate → ℚ → ℚ → ℝ) (t : JsDate) (H S : ℝ)
    {p q : ShadowFinderPoint} (hp : p ∈ generateShadowFinderGrid sc t H S)
    (hq : q ∈ generateShadowFinderGrid sc t H S)
    (hlat : p.lat = q.lat) (hlng : p.lng = q.lng) : p = q := by
  obtain ⟨i, hi, j, hj, rfl⟩ := (mem_generateShadowFinderGrid sc t H S p).mp hp
  obtain ⟨i', hi', j', hj', rfl⟩ := (mem_generateShadowFinderGrid sc t H S q).mp hq
  have hii : i = i' := natCast_half_inj (by
    have := hlat
    simp only [gridCellPoint] at this
    linarith)
  have hjj : j = j' := natCast_half_inj (by
    have := hlng
    simp only [gridCellPoint] at this
    linarith)
  subst hii
  subst hjj
  rfl

theorem intersection_grid_forward (sc : JsDate → ℚ → ℚ → ℝ) (t1 t2 : JsDate)
    (H1 S1 H2 S2 : ℝ) (ip : IntersectionPoint)
    (hip : ip ∈ intersectionPoints (generateShadowFinderGrid sc t1 H1 S1)
      (generateShadowFinderGrid sc t2 H2 S2)) :
    isGridCell ip.lat ip.lng ∧
    pointLikelihood (sc t1 ip.lat ip.lng) H1 S1 ≠ -1 ∧
    pointLikelihood (sc t1 ip.lat ip.lng) H1 S1 ≤ 0.15 ∧
    pointLikelihood (sc t2 ip.lat ip.lng) H2 S2 ≠ -1 ∧
    pointLikelihood (sc t2 ip.lat ip.lng) H2 S2 ≤ 0.15 ∧
    ip.likelihood = pointLikelihood (sc t2 ip.lat ip.lng) H2 S2 ∧
    ip.combinedLikelihood = max (pointLikelihood (sc t1 ip.lat ip.lng) H1 S1)
      (pointLikelihood (sc t2 ip.lat ip.lng) H2 S2) := by
  obtain ⟨sp, hsp, fp, hfp, rfl⟩ := (mem_intersectionPoints _ _ ip).mp hip
  obtain ⟨hsp2, hspne, hsple⟩ := (mem_visibleFilter _ sp).mp hsp
  rw [firstPointsMap_apply] at hfp
  have hfpmem : fp ∈ visibleFilter (generateShadowFinderGrid sc t1 H1 S1) :=
    List.mem_reverse.mp (List.mem_of_find?_eq_some hfp)
  have hfpkey : coordKey fp.lat fp.lng = coordKey sp.lat sp.lng := by
    have h := List.find?_some hfp
    simpa using h
  obtain ⟨hfp1, hfpne, hfple⟩ := (mem_visibleFilter _ fp).mp hfpmem
  have hcell2 : isGridCell sp.lat sp.lng := grid_cell_of_mem sc t2 H2 S2 sp hsp2
  have hcell1 : isGridCell fp.lat fp.lng := grid_cell_of_mem sc t1 H1 S1 fp hfp1
  obtain ⟨hlat, hlng⟩ := coordKey_cell_inj hcell1 hcell2 hfpkey
  have hfplik : fp.likelihood = pointLikelihood (sc t1 sp.lat sp.lng) H1 S1 := by
    rw [grid_likelihood_of_mem sc t1 H1 S1 fp hfp1, hlat, hlng]
  have hsplik : sp.likelihood = pointLikelihood (sc t2 sp.lat sp.lng) H2 S2 :=
    grid_likelihood_of_mem sc t2 H2 S2 sp hsp2
  refine ⟨hcell2, ?_, ?_, ?_, ?_, ?_, ?_⟩
  · rw [← hfplik]
    exact hfpne
  · rw [← hfplik]
    exact hfple
  · rw [← hsplik]
    exact hspne
  · rw [← hsplik]
    exact hsple
  · exact hsplik
  · rw [← hfplik, ← hsplik]

theorem intersection_grid_backward (sc : JsDate → ℚ → ℚ → ℝ) (t1 t2 : JsDate)
    (H1 S1 H2 S2 : ℝ) (lat lng : ℚ) (hcell : isGridCell lat lng)
    (h1ne : pointLikelihood (sc t1 lat lng) H1 S1 ≠ -1)
    (h1le : pointLikelihood (sc t1 lat lng) H1 S1 ≤ 0.15)
    (h2ne : pointLikelihood (sc t2 lat lng) H2 S2 ≠ -1)
    (h2le : pointLikelihood (sc t2 lat lng) H2 S2 ≤ 0.15) :
    ∃ ip ∈ intersectionPoints (generateShadowFinderGrid sc t1 H1 S1)
      (generateShadowFinderGrid sc t2 H2 S2), ip.lat = lat ∧ ip.lng = lng := by
  obtain ⟨⟨i, hi, hlat⟩, ⟨j, hj, hlng⟩⟩ := hcell
  subst hlat
  subst hlng
  have hsp2 : gridCellPoint sc t2 H2 S2 i j ∈ generateShadowFinderGrid sc t2 H2 S2 :=
    gridCellPoint_mem sc t2 H2 S2 i j hi hj
  have hspvis : gridCellPoint sc t2 H2 S2 i j ∈
      visibleFilter (generateShadowFinderGrid sc t2 H2 S2) :=
    (mem_visibleFilter _ _).mpr ⟨hsp2, h2ne, h2le⟩
  have hfp1 : gridCellPoint sc t1 H1 S1 i j ∈ generateShadowFinderGrid sc t1 H1 S1 :=
    gridCellPoint_mem sc t1 H1 S1 i j hi hj
  have hfpvis : gridCellPoint sc t1 H1 S1 i j ∈
      visibleFilter (generateShadowFinderGrid sc t1 H1 S1) :=
    (mem_visibleFilter _ _).mpr ⟨hfp1, h1ne, h1le⟩
  have hsome : ∃ fp, firstPointsMap (visibleFilter (generateShadowFinderGrid sc t1 H1 S1))
      (coordKey (gridCellPoint sc t2 H2 S2 i j).lat (gridCellPoint sc t2 H2 S2 i j).lng)
        = some fp := by
    rw [firstPointsMap_apply, ← Option.isSome_iff_exists]
    rw [List.find?_isSome]
    exact ⟨gridCellPoint sc t1 H1 S1 i j, List.mem_reverse.mpr hfpvis,
      decide_eq_true rfl⟩
  obtain ⟨fp, hfp⟩ := hsome
  refine ⟨_, (mem_intersectionPoints _ _ _).mpr
    ⟨gridCellPoint sc t2 H2 S2 i j, hspvis, fp, hfp, rfl⟩, rfl, rfl⟩

theorem analyze_ok_inv (sc : JsDate → ℚ → ℚ → ℝ) (input : ShadowAnalysisInput)
    (res : ShadowAnalysisResult) (hok : analyzeShadowMeasurements sc input = .ok res) :
    res = analysisResultOf sc input.knownTime input.objectHeight input.shadowLength := by
  by_cases h1 : input.objectHeight ≤ 0 ∨ input.shadowLength ≤ 0
  · rw [analyzeShadowMeasurements, if_pos h1] at hok
    exact absurd hok (by simp)
  · by_cases h2 : input.knownTime.time = none
    · rw [analyzeShadowMeasurements, if_neg h1, if_pos h2] at hok
      exact absurd hok (by simp)
    · rw [analyzeShadowMeasurements, if_neg h1, if_neg h2] at hok
      exact (Except.ok.inj hok).symm

/-! ### Claim theorems -/

/-- C2: for every valid input (objectHeight > 0, shadowLength > 0, valid
timestamp), the grid scan returns exactly 290 × 720 = 208,800 points,
enumerated in row-major order (latitude outer loop, longitude inner loop,
row `i` and column `j` giving latitude `-60 + i·0.5` and longitude
`-180 + j·0.5`), with every latitude in [-60, 84.5] and every longitude in
[-180, 179.5] on an exact 0.5-degree step. -/
theorem C2_grid_structure (sc : JsDate → ℚ → ℚ → ℝ) (t : JsDate) (H S : ℝ)
    (_hH : 0 < H) (_hS : 0 < S) (_ht : t.time ≠ none) :
    (generateShadowFinderGrid sc t H S).length = 208800 ∧
    generateShadowFinderGrid sc t H S =
      ((List.range 290).flatMap fun i => (List.range 720).map fun j =>
        gridCellPoint sc t H S i j) ∧
    ∀ p ∈ generateShadowFinderGrid sc t H S,
      -60 ≤ p.lat ∧ p.lat ≤ 84.5 ∧ -180 ≤ p.lng ∧ p.lng ≤ 179.5 ∧
      isGridCell p.lat p.lng := by
  refine ⟨generateShadowFinderGrid_length sc t H S,
    generateShadowFinderGrid_eq sc t H S, fun p hp => ?_⟩
  have hcell := grid_cell_of_mem sc t H S p hp
  obtain ⟨hb1, hb2, hb3, hb4⟩ := grid_bounds_of_cell p.lat p.lng hcell
  exact ⟨hb1, hb2, hb3, hb4, hcell⟩

theorem C2_witness :
    (generateShadowFinderGrid (fun _ _ _ => (0 : ℝ)) ⟨some 0⟩ 1 1).length = 208800 :=
  (C2_grid_structure (fun _ _ _ => (0 : ℝ)) ⟨some 0⟩ 1 1 (by norm_num) (by norm_num)
    (by simp)).1

/-- C3: for every grid point, if the solar altitude at its coordinates is
at most 0 then its likelihood is the night sentinel -1; if the altitude is
strictly positive then its likelihood is
|objectHeight / tan(altitude) - shadowLength| / shadowLength, which is
nonnegative and zero exactly when the predicted shadow length
objectHeight / tan(altitude) equals the observed shadowLength. -/
theorem C3_likelihood_formula (sc : JsDate → ℚ → ℚ → ℝ) (t : JsDate) (H S : ℝ)
    (hS : 0 < S) (p : ShadowFinderPoint) (hp : p ∈ generateShadowFinderGrid sc t H S) :
    (sc t p.lat p.lng ≤ 0 → p.likelihood = -1) ∧
    (0 < sc t p.lat p.lng →
      p.likelihood = |H / Real.tan (sc t p.lat p.lng) - S| / S ∧
      0 ≤ p.likelihood ∧
      (p.likelihood = 0 ↔ H / Real.tan (sc t p.lat p.lng) = S)) := by
  have hl := grid_likelihood_of_mem sc t H S p hp
  constructor
  · intro h
    rw [hl, pointLikelihood_of_nonpos _ _ _ h]
  · intro h
    rw [hl, pointLikelihood_of_pos _ _ _ h]
    refine ⟨?_, abs_nonneg _, ?_⟩
    · rw [abs_div, abs_of_pos hS]
    · rw [abs_eq_zero, div_eq_zero_iff, sub_eq_zero]
      simp [ne_of_gt hS]

theorem C3_witness :
    (gridCellPoint (fun _ _ _ => (-1 : ℝ)) ⟨some 0⟩ 1 1 0 0).likelihood = -1 :=
  (C3_likelihood_formula (fun _ _ _ => (-1 : ℝ)) ⟨some 0⟩ 1 1 (by norm_num) _
    (gridCellPoint_mem _ ⟨some 0⟩ 1 1 0 0 (by norm_num) (by norm_num))).1 (by norm_num)

/-- C4: for two scans over the same fixed grid, a grid cell yields an
intersection point iff its likelihoods in both scans are ≠ -1 and ≤ 0.15;
every intersection point at that cell has combinedLikelihood equal to the
max of the two scans' likelihoods there; and the one-decimal coordinate key
of a grid cell matches exactly that same cell and no other cell. -/
theorem C4_intersection_characterization (sc : JsDate → ℚ → ℚ → ℝ) (t1 t2 : JsDate)
    (H1 S1 H2 S2 : ℝ) (lat lng : ℚ) (hcell : isGridCell lat lng) :
    ((∃ ip ∈ intersectionPoints (generateShadowFinderGrid sc t1 H1 S1)
        (generateShadowFinderGrid sc t2 H2 S2), ip.lat = lat ∧ ip.lng = lng) ↔
      (pointLikelihood (sc t1 lat lng) H1 S1 ≠ -1 ∧
       pointLikelihood (sc t1 lat lng) H1 S1 ≤ 0.15 ∧
       pointLikelihood (sc t2 lat lng) H2 S2 ≠ -1 ∧
       pointLikelihood (sc t2 lat lng) H2 S2 ≤ 0.15)) ∧
    (∀ ip ∈ intersectionPoints (generateShadowFinderGrid sc t1 H1 S1)
        (generateShadowFinderGrid sc t2 H2 S2),
      ip.lat = lat → ip.lng = lng →
      ip.combinedLikelihood = max (pointLikelihood (sc t1 lat lng) H1 S1)
        (pointLikelihood (sc t2 lat lng) H2 S2)) ∧
    (∀ lat' lng' : ℚ, isGridCell lat' lng' →
      (coordKey lat' lng' = coordKey lat lng ↔ lat' = lat ∧ lng' = lng)) := by
  refine ⟨⟨?_, ?_⟩, ?_, ?_⟩
  · rintro ⟨ip, hip, hlat, hlng⟩
    obtain ⟨_, h1ne, h1le, h2ne, h2le, _, _⟩ :=
      intersection_grid_forward sc t1 t2 H1 S1 H2 S2 ip hip
    rw [hlat, hlng] at h1ne h1le h2ne h2le
    exact ⟨h1ne, h1le, h2ne, h2le⟩
  · rintro ⟨h1ne, h1le, h2ne, h2le⟩
    exact intersection_grid_backward sc t1 t2 H1 S1 H2 S2 lat lng hcell h1ne h1le h2ne h2le
  · intro ip hip hlat hlng
    obtain ⟨_, _, _, _, _, _, hcomb⟩ :=
      intersection_grid_forward sc t1 t2 H1 S1 H2 S2 ip hip
    rw [hlat, hlng] at hcomb
    exact hcomb
  · intro lat' lng' hcell'
    constructor
    · intro hk
      exact coordKey_cell_inj hcell' hcell hk
    · rintro ⟨rfl, rfl⟩
      rfl

theorem C4_witness :
    (∃ ip ∈ intersectionPoints (generateShadowFinderGrid (fun _ _ _ => (-1 : ℝ)) ⟨some 0⟩ 1 1)
        (generateShadowFinderGrid (fun _ _ _ => (-1 : ℝ)) ⟨some 0⟩ 1 1),
      ip.lat = -60 ∧ ip.lng = -180) ↔
      (pointLikelihood (-1) 1 1 ≠ -1 ∧ pointLikelihood (-1) 1 1 ≤ 0.15 ∧
       pointLikelihood (-1) 1 1 ≠ -1 ∧ pointLikelihood (-1) 1 1 ≤ 0.15) :=
  (C4_intersection_characterization (fun _ _ _ => (-1 : ℝ)) ⟨some 0⟩ ⟨some 0⟩ 1 1 1 1
    (-60) (-180) ⟨⟨0, by norm_num, by norm_num⟩, ⟨0, by norm_num, by norm_num⟩⟩).1

/-- C5 counterexample: at objectHeight = 0, shadowLength = 1 and an invalid
timestamp, the timestamp does not resolve to a valid instant, yet the
program does not raise the invalid-timestamp error (it raises the
invalid-measurement error instead), refuting the claimed "raises an
invalid-timestamp error iff the timestamp does not resolve". -/
theorem C5_counterexample :
    ((⟨0, 1, ⟨none⟩⟩ : ShadowAnalysisInput).knownTime.time = none) ∧
    analyzeShadowMeasurements (fun _ _ _ => (0 : ℝ)) ⟨0, 1, ⟨none⟩⟩ ≠
      .error "Invalid date/time provided" := by
  refine ⟨rfl, fun he => ?_⟩
  obtain ⟨hno, _⟩ :=
    (analyzeShadowMeasurements_timestamp_error_iff (fun _ _ _ => (0 : ℝ)) ⟨0, 1, ⟨none⟩⟩).mp he
  exact hno (Or.inl (le_refl 0))

/-- C5 (amended): the analysis entry point raises the invalid-measurement
error iff objectHeight ≤ 0 or shadowLength ≤ 0; when the measurements are
valid, it raises the invalid-timestamp error iff the timestamp does not
resolve to a valid instant; and for inputs passing both checks it returns
the scan result, so no error arises from within the sweep itself. -/
theorem C5_validation (sc : JsDate → ℚ → ℚ → ℝ) (input : ShadowAnalysisInput) :
    (analyzeShadowMeasurements sc input =
        .error "Invalid measurements: object height and shadow length must be positive" ↔
      input.objectHeight ≤ 0 ∨ input.shadowLength ≤ 0) ∧
    (analyzeShadowMeasurements sc input = .error "Invalid date/time provided" ↔
      ¬ (input.objectHeight ≤ 0 ∨ input.shadowLength ≤ 0) ∧
        input.knownTime.time = none) ∧
    (0 < input.objectHeight → 0 < input.shadowLength → input.knownTime.time ≠ none →
      analyzeShadowMeasurements sc input =
        .ok (analysisResultOf sc input.knownTime input.objectHeight input.shadowLength)) :=
  ⟨analyzeShadowMeasurements_measurement_error_iff sc input,
   analyzeShadowMeasurements_timestamp_error_iff sc input,
   fun h1 h2 h3 => analyzeShadowMeasurements_ok sc input h1 h2 h3⟩

theorem C5_witness :
    analyzeShadowMeasurements (fun _ _ _ => (0 : ℝ)) ⟨1, 1, ⟨some 0⟩⟩ =
      .ok (analysisResultOf (fun _ _ _ => (0 : ℝ)) ⟨some 0⟩ 1 1) :=
  (C5_validation (fun _ _ _ => (0 : ℝ)) ⟨1, 1, ⟨some 0⟩⟩).2.2 (by norm_num) (by norm_num)
    (by simp)

/-- C6: the best-location estimator fails with the no-match error iff the
scan contains zero points with likelihood in [0, 0.10], and succeeds
(returning an estimate) whenever at least one such point exists. -/
theorem C6_no_match (result : ShadowAnalysisResult) :
    (estimateBestLocation result = .error "No suitable location matches found" ↔
      ¬ ∃ p ∈ result.points, 0 ≤ p.likelihood ∧ p.likelihood ≤ 0.1) ∧
    ((∃ est, estimateBestLocation result = .ok est) ↔
      ∃ p ∈ result.points, 0 ≤ p.likelihood ∧ p.likelihood ≤ 0.1) := by
  have hne := mainBandOf_ne_nil_iff result.points
  constructor
  · rw [estimateBestLocation_eq_error_iff]
    constructor
    · intro h hex
      exact absurd h (hne.mpr hex)
    · intro h
      by_contra hcon
      exact h (hne.mp hcon)
  · rw [estimateBestLocation_isOk_iff, hne]

/-- C7: when at least one point has likelihood in [0, 0.10], the estimator
returns the arithmetic mean latitude and longitude of all such points
(independent of the internal sort, which is for presentation only), and an
accuracy of max(latSpread·111, lngSpread·111·cos(centroid latitude in
radians))/2 clamped below at 1.0 km, so accuracy ≥ 1.0 always holds. -/
theorem C7_centroid_accuracy (result : ShadowAnalysisResult)
    (h : ∃ p ∈ result.points, 0 ≤ p.likelihood ∧ p.likelihood ≤ 0.1) :
    ∃ est, estimateBestLocation result = .ok est ∧
      est.latitude = ((mainBandOf result.points).map (·.lat)).sum /
        ((mainBandOf result.points).length : ℚ) ∧
      est.longitude = ((mainBandOf result.points).map (·.lng)).sum /
        ((mainBandOf result.points).length : ℚ) ∧
      est.accuracy = max
        (max
          (((mathMax ((mainBandOf result.points).map (·.lat)) -
              mathMin ((mainBandOf result.points).map (·.lat)) : ℚ) : ℝ) * 111)
          (((mathMax ((mainBandOf result.points).map (·.lng)) -
              mathMin ((mainBandOf result.points).map (·.lng)) : ℚ) : ℝ) * 111 *
            Real.cos (((((mainBandOf result.points).map (·.lat)).sum /
                ((mainBandOf result.points).length : ℚ) : ℚ) : ℝ) * Real.pi / 180)) / 2)
        1 ∧
      1 ≤ est.accuracy := by
  refine ⟨_, estimateBestLocation_ok_char result ((mainBandOf_ne_nil_iff _).mpr h),
    rfl, rfl, rfl, le_max_right _ _⟩

theorem C7_witness :
    ∃ est, estimateBestLocation ⟨[⟨0, 0, 0⟩], ⟨(0, 0), (0, 0)⟩, ⟨1, 1, 0, 1, 1, 1⟩⟩ =
        .ok est ∧
      est.latitude = ((mainBandOf [⟨0, 0, 0⟩]).map (·.lat)).sum /
        ((mainBandOf [⟨0, 0, 0⟩]).length : ℚ) ∧
      est.longitude = ((mainBandOf [⟨0, 0, 0⟩]).map (·.lng)).sum /
        ((mainBandOf [⟨0, 0, 0⟩]).length : ℚ) ∧
      est.accuracy = max
        (max
          (((mathMax ((mainBandOf [⟨0, 0, 0⟩]).map (·.lat)) -
              mathMin ((mainBandOf [⟨0, 0, 0⟩]).map (·.lat)) : ℚ) : ℝ) * 111)
          (((mathMax ((mainBandOf [⟨0, 0, 0⟩]).map (·.lng)) -
              mathMin ((mainBandOf [⟨0, 0, 0⟩]).map (·.lng)) : ℚ) : ℝ) * 111 *
            Real.cos (((((mainBandOf [⟨0, 0, 0⟩]).map (·.lat)).sum /
                ((mainBandOf [⟨0, 0, 0⟩]).length : ℚ) : ℚ) : ℝ) * Real.pi / 180)) / 2)
        1 ∧
      1 ≤ est.accuracy :=
  C7_centroid_accuracy ⟨[⟨0, 0, 0⟩], ⟨(0, 0), (0, 0)⟩, ⟨1, 1, 0, 1, 1, 1⟩⟩
    ⟨⟨0, 0, 0⟩, by simp, by norm_num⟩

open Classical in
/-- C8: for every scan, the ultra-tight band count (likelihood in [0, 0.05])
is at most the tight band count ([0, 0.08]), which is at most the visible
band count ([0, 0.15]); each band count is the number of points satisfying
that band's inclusive threshold (so a point is counted in every band it
satisfies, and the bands overlap); and a night point (likelihood -1)
satisfies no band predicate. -/
theorem C8_band_monotonicity (sc : JsDate → ℚ → ℚ → ℝ) (input : ShadowAnalysisInput)
    (res : ShadowAnalysisResult) (hok : analyzeShadowMeasurements sc input = .ok res) :
    res.statistics.ultraTightBandPoints =
      (res.points.filter fun p => decide (0 ≤ p.likelihood ∧ p.likelihood ≤ 0.05)).length ∧
    res.statistics.tightBandPoints =
      (res.points.filter fun p => decide (0 ≤ p.likelihood ∧ p.likelihood ≤ 0.08)).length ∧
    res.statistics.visibleBandPoints =
      (res.points.filter fun p => decide (0 ≤ p.likelihood ∧ p.likelihood ≤ 0.15)).length ∧
    res.statistics.ultraTightBandPoints ≤ res.statistics.tightBandPoints ∧
    res.statistics.tightBandPoints ≤ res.statistics.visibleBandPoints ∧
    ∀ p ∈ res.points, p.likelihood = -1 →
      ¬ (0 ≤ p.likelihood ∧ p.likelihood ≤ 0.15) := by
  obtain rfl := analyze_ok_inv sc input res hok
  refine ⟨rfl, rfl, rfl, ?_, ?_, ?_⟩
  · rw [analysisResultOf_ultra, analysisResultOf_tight,
      ← List.countP_eq_length_filter, ← List.countP_eq_length_filter]
    apply List.countP_mono_left
    intro p _ h
    simp only [decide_eq_true_eq] at h ⊢
    exact ⟨h.1, le_trans h.2 (by norm_num)⟩
  · rw [analysisResultOf_tight, analysisResultOf_visible,
      ← List.countP_eq_length_filter, ← List.countP_eq_length_filter]
    apply List.countP_mono_left
    intro p _ h
    simp only [decide_eq_true_eq] at h ⊢
    exact ⟨h.1, le_trans h.2 (by norm_num)⟩
  · intro p _ hn
    rw [hn]
    rintro ⟨h0, _⟩
    norm_num at h0

theorem C8_witness :
    (analysisResultOf (fun _ _ _ => (0 : ℝ)) ⟨some 0⟩ 1 1).statistics.ultraTightBandPoints ≤
      (analysisResultOf (fun _ _ _ => (0 : ℝ)) ⟨some 0⟩ 1 1).statistics.tightBandPoints :=
  (C8_band_monotonicity (fun _ _ _ => (0 : ℝ)) ⟨1, 1, ⟨some 0⟩⟩ _
    (analyzeShadowMeasurements_ok _ _ (by norm_num) (by norm_num) (by simp))).2.2.2.1

/-- C9: for every scan of a valid input, the result's main-band coordinate
envelope is the min/max latitude and longitude over exactly the points with
likelihood in [0, 0.10]; when that subset is empty both ranges are [0, 0]
and the analysis still returns a result rather than an error. -/
theorem C9_main_band_envelope (sc : JsDate → ℚ → ℚ → ℝ) (input : ShadowAnalysisInput)
    (hH : 0 < input.objectHeight) (hS : 0 < input.shadowLength)
    (ht : input.knownTime.time ≠ none) :
    ∃ res, analyzeShadowMeasurements sc input = .ok res ∧
      (mainBandOf res.points ≠ [] →
        res.mainBandCoordinates.latRange =
          (mathMin ((mainBandOf res.points).map (·.lat)),
            mathMax ((mainBandOf res.points).map (·.lat))) ∧
        res.mainBandCoordinates.lngRange =
          (mathMin ((mainBandOf res.points).map (·.lng)),
            mathMax ((mainBandOf res.points).map (·.lng)))) ∧
      (mainBandOf res.points = [] →
        res.mainBandCoordinates.latRange = (0, 0) ∧
        res.mainBandCoordinates.lngRange = (0, 0)) := by
  refine ⟨_, analyzeShadowMeasurements_ok sc input hH hS ht, ?_, ?_⟩
  · intro hne
    have hl : 0 < (mainBandOf (analysisResultOf sc input.knownTime input.objectHeight
        input.shadowLength).points).length := List.length_pos.mpr hne
    exact ⟨(analysisResultOf_latRange sc input.knownTime input.objectHeight
        input.shadowLength).trans (if_pos hl),
      (analysisResultOf_lngRange sc input.knownTime input.objectHeight
        input.shadowLength).trans (if_pos hl)⟩
  · intro he
    have hl : ¬ 0 < (mainBandOf (analysisResultOf sc input.knownTime input.objectHeight
        input.shadowLength).points).length := by
      rw [he]
      simp
    exact ⟨(analysisResultOf_latRange sc input.knownTime input.objectHeight
        input.shadowLength).trans (if_neg hl),
      (analysisResultOf_lngRange sc input.knownTime input.objectHeight
        input.shadowLength).trans (if_neg hl)⟩

theorem C9_witness :
    ∃ res, analyzeShadowMeasurements (fun _ _ _ => (0 : ℝ)) ⟨1, 1, ⟨some 0⟩⟩ = .ok res ∧
      (mainBandOf res.points ≠ [] →
        res.mainBandCoordinates.latRange =
          (mathMin ((mainBandOf res.points).map (·.lat)),
            mathMax ((mainBandOf res.points).map (·.lat))) ∧
        res.mainBandCoordinates.lngRange =
          (mathMin ((mainBandOf res.points).map (·.lng)),
            mathMax ((mainBandOf res.points).map (·.lng)))) ∧
      (mainBandOf res.points = [] →
        res.mainBandCoordinates.latRange = (0, 0) ∧
        res.mainBandCoordinates.lngRange = (0, 0)) :=
  C9_main_band_envelope (fun _ _ _ => (0 : ℝ)) ⟨1, 1, ⟨some 0⟩⟩ (by norm_num) (by norm_num)
    (by simp)

/-- C10: for every point list whose coordinates all lie within the fixed
grid bounds (latitude in [-60, 84.5], longitude in [-180, 179.5]), a
successful best-location estimate has its latitude in [-60, 84.5] and its
longitude in [-180, 179.5]: the centroid of a non-empty subset of grid
points never leaves the grid bounds. -/
theorem C10_centroid_in_bounds (result : ShadowAnalysisResult)
    (hbound : ∀ p ∈ result.points,
      -60 ≤ p.lat ∧ p.lat ≤ 84.5 ∧ -180 ≤ p.lng ∧ p.lng ≤ 179.5)
    (est : BestLocation) (hok : estimateBestLocation result = .ok est) :
    -60 ≤ est.latitude ∧ est.latitude ≤ 84.5 ∧
    -180 ≤ est.longitude ∧ est.longitude ≤ 179.5 := by
  have hne : mainBandOf result.points ≠ [] :=
    (estimateBestLocation_isOk_iff result).mp ⟨est, hok⟩
  have hchar := estimateBestLocation_ok_char result hne
  rw [hok] at hchar
  have hest := Except.ok.inj hchar
  have hlats : ∀ x ∈ (mainBandOf result.points).map (·.lat), -60 ≤ x ∧ x ≤ 84.5 := by
    intro x hx
    obtain ⟨p, hp, rfl⟩ := List.mem_map.mp hx
    obtain ⟨h1, h2, _, _⟩ := hbound p ((mem_mainBandOf _ _).mp hp).1
    exact ⟨h1, h2⟩
  have hlngs : ∀ x ∈ (mainBandOf result.points).map (·.lng), -180 ≤ x ∧ x ≤ 179.5 := by
    intro x hx
    obtain ⟨p, hp, rfl⟩ := List.mem_map.mp hx
    obtain ⟨_, _, h3, h4⟩ := hbound p ((mem_mainBandOf _ _).mp hp).1
    exact ⟨h3, h4⟩
  have hmaplat : (mainBandOf result.points).map (·.lat) ≠ [] := by
    intro e
    exact hne (List.map_eq_nil_iff.mp e)
  have hmaplng : (mainBandOf result.points).map (·.lng) ≠ [] := by
    intro e
    exact hne (List.map_eq_nil_iff.mp e)
  obtain ⟨ha1, ha2⟩ := list_avg_bounds hmaplat hlats
  obtain ⟨hb1, hb2⟩ := list_avg_bounds hmaplng hlngs
  rw [List.length_map] at ha1 ha2 hb1 hb2
  rw [hest]
  exact ⟨ha1, ha2, hb1, hb2⟩

theorem C10_witness :
    -60 ≤ (⟨0, 0, 1⟩ : BestLocation).latitude ∧
    (⟨0, 0, 1⟩ : BestLocation).latitude ≤ 84.5 ∧
    -180 ≤ (⟨0, 0, 1⟩ : BestLocation).longitude ∧
    (⟨0, 0, 1⟩ : BestLocation).longitude ≤ 179.5 := by
  have hm : mainBandOf [(⟨0, 0, 0⟩ : ShadowFinderPoint)] = [⟨0, 0, 0⟩] := by
    rw [mainBandOf]
    rw [List.filter_cons_of_pos]
    · rfl
    · simp only [decide_eq_true_eq]
      norm_num
  have hchar := estimateBestLocation_ok_char
    ⟨[⟨0, 0, 0⟩], ⟨(0, 0), (0, 0)⟩, ⟨1, 1, 0, 1, 1, 1⟩⟩ (by
      intro e
      rw [show (⟨[⟨0, 0, 0⟩], ⟨(0, 0), (0, 0)⟩,
        ⟨1, 1, 0, 1, 1, 1⟩⟩ : ShadowAnalysisResult).points = [⟨0, 0, 0⟩] from rfl, hm] at e
      simp at e)
  have hok : estimateBestLocation ⟨[⟨0, 0, 0⟩], ⟨(0, 0), (0, 0)⟩, ⟨1, 1, 0, 1, 1, 1⟩⟩ =
      .ok ⟨0, 0, 1⟩ := by
    rw [hchar]
    simp only [show (⟨[⟨0, 0, 0⟩], ⟨(0, 0), (0, 0)⟩,
      ⟨1, 1, 0, 1, 1, 1⟩⟩ : ShadowAnalysisResult).points = [⟨0, 0, 0⟩] from rfl, hm]
    simp only [List.map_cons, List.map_nil, List.sum_cons, List.sum_nil, List.length_cons,
      List.length_nil, mathMin, mathMax, List.foldl_nil]
    norm_num
  exact C10_centroid_in_bounds ⟨[⟨0, 0, 0⟩], ⟨(0, 0), (0, 0)⟩, ⟨1, 1, 0, 1, 1, 1⟩⟩
    (by
      intro p hp
      simp only [List.mem_singleton] at hp
      subst hp
      norm_num)
    ⟨0, 0, 1⟩ hok

open Classical in
theorem specJointBestEstimate_eq_error_iff (ips : List IntersectionPoint) :
    specJointBestEstimate ips = .error "No suitable location matches found" ↔
      (ips.filter fun p =>
        decide (0 ≤ p.combinedLikelihood ∧ p.combinedLikelihood ≤ 0.1)) = [] := by
  simp only [specJointBestEstimate]
  set F := ips.filter fun p =>
    decide (0 ≤ p.combinedLikelihood ∧ p.combinedLikelihood ≤ 0.1) with hF
  have hlen : (F.mergeSort fun a b =>
      decide (a.combinedLikelihood ≤ b.combinedLikelihood)).length = F.length :=
    (List.mergeSort_perm F _).length_eq
  split_ifs with hc
  · rw [hlen] at hc
    simp [List.length_eq_zero.mp hc]
  · rw [hlen] at hc
    have hne : F ≠ [] := fun e => hc (by rw [e]; rfl)
    simp [hne]

/-- C1 (amended): in two-photo mode the program derives three artifacts from
a completed pair of scans: a per-photo best-location estimate for each scan,
each computed by the single-scan estimator on that scan's own points, and
the intersection point list, whose points all sit on grid cells and carry
combinedLikelihood = max of the two scans' likelihoods at that cell.  No
estimator is applied to the combined set: the LocationEstimator algorithm is
never run on combinedLikelihood, so no joint best estimate is produced. -/
theorem C1_two_photo_behaviour (sc : JsDate → ℚ → ℚ → ℝ) (t1 t2 : JsDate)
    (H1 S1 H2 S2 : ℝ) (res1 res2 : ShadowAnalysisResult)
    (h1 : analyzeShadowMeasurements sc ⟨H1, S1, t1⟩ = .ok res1)
    (h2 : analyzeShadowMeasurements sc ⟨H2, S2, t2⟩ = .ok res2) :
    (twoPhotoAnalysis res1 res2).1 = estimateBestLocation res1 ∧
    (twoPhotoAnalysis res1 res2).2.1 = estimateBestLocation res2 ∧
    (twoPhotoAnalysis res1 res2).2.2 = intersectionPoints res1.points res2.points ∧
    ∀ ip ∈ intersectionPoints res1.points res2.points,
      isGridCell ip.lat ip.lng ∧
      ip.combinedLikelihood = max (pointLikelihood (sc t1 ip.lat ip.lng) H1 S1)
        (pointLikelihood (sc t2 ip.lat ip.lng) H2 S2) := by
  obtain rfl := analyze_ok_inv sc ⟨H1, S1, t1⟩ res1 h1
  obtain rfl := analyze_ok_inv sc ⟨H2, S2, t2⟩ res2 h2
  refine ⟨rfl, rfl, rfl, fun ip hip => ?_⟩
  have hip' : ip ∈ intersectionPoints (generateShadowFinderGrid sc t1 H1 S1)
      (generateShadowFinderGrid sc t2 H2 S2) := hip
  obtain ⟨hcell, _, _, _, _, _, hcomb⟩ :=
    intersection_grid_forward sc t1 t2 H1 S1 H2 S2 ip hip'
  exact ⟨hcell, hcomb⟩

theorem C1_witness :
    (twoPhotoAnalysis (analysisResultOf altC ⟨some 0⟩ 1 1)
        (analysisResultOf altC ⟨some 1⟩ 1 1)).1 =
      estimateBestLocation (analysisResultOf altC ⟨some 0⟩ 1 1) :=
  (C1_two_photo_behaviour altC ⟨some 0⟩ ⟨some 1⟩ 1 1 1 1 _ _
    (analyzeShadowMeasurements_ok _ _ (by norm_num) (by norm_num) (by simp))
    (analyzeShadowMeasurements_ok _ _ (by norm_num) (by norm_num) (by simp))).1

/-- C1 counterexample: a concrete pair of completed scans (solar provider
`altC`, measurements 1/1, timestamps 0 and 1) for which the spec's joint
estimate — the LocationEstimator algorithm applied to combinedLikelihood
over the intersection set — is a no-match error, while both location
estimates the program actually yields in two-photo mode are successful
estimates, so neither program output equals the claimed joint estimate
reduced from the combined set. -/
theorem C1_counterexample :
    specJointBestEstimate (intersectionPoints
        (analysisResultOf altC ⟨some 0⟩ 1 1).points
        (analysisResultOf altC ⟨some 1⟩ 1 1).points) =
      .error "No suitable location matches found" ∧
    (twoPhotoAnalysis (analysisResultOf altC ⟨some 0⟩ 1 1)
        (analysisResultOf altC ⟨some 1⟩ 1 1)).1 ≠
      specJointBestEstimate (intersectionPoints
        (analysisResultOf altC ⟨some 0⟩ 1 1).points
        (analysisResultOf altC ⟨some 1⟩ 1 1).points) ∧
    (twoPhotoAnalysis (analysisResultOf altC ⟨some 0⟩ 1 1)
        (analysisResultOf altC ⟨some 1⟩ 1 1)).2.1 ≠
      specJointBestEstimate (intersectionPoints
        (analysisResultOf altC ⟨some 0⟩ 1 1).points
        (analysisResultOf altC ⟨some 1⟩ 1 1).points) := by
  have harct : 0 < Real.arctan (25/28) := by
    have h := Real.arctan_strictMono (show (0 : ℝ) < 25/28 by norm_num)
    rwa [Real.arctan_zero] at h
  have hpi4 : 0 < Real.pi / 4 := by positivity
  have hLpi : pointLikelihood (Real.pi / 4) 1 1 = 0 := by
    rw [pointLikelihood_of_pos _ _ _ hpi4, Real.tan_pi_div_four]
    norm_num
  have hLar : pointLikelihood (Real.arctan (25/28)) 1 1 = 3/25 := by
    rw [pointLikelihood_of_pos _ _ _ harct, Real.tan_arctan,
      show ((1 : ℝ) / (25/28) - 1) / 1 = 3/25 by norm_num,
      abs_of_nonneg (by norm_num : (0 : ℝ) ≤ 3/25)]
  have hA60 : altC ⟨some 0⟩ (-60) (-180) = Real.pi / 4 := by norm_num [altC]
  have hA0 : ∀ lng : ℚ, altC ⟨some 0⟩ 0 lng = Real.arctan (25/28) := fun lng => by
    norm_num [altC]
  have hB0 : altC ⟨some 1⟩ 0 (-180) = Real.pi / 4 := by norm_num [altC]
  have hBother : ∀ lat lng : ℚ, lat ≠ 0 → altC ⟨some 1⟩ lat lng = -1 := fun lat lng h => by
    simp [altC, h]
  have herr : specJointBestEstimate (intersectionPoints
      (analysisResultOf altC ⟨some 0⟩ 1 1).points
      (analysisResultOf altC ⟨some 1⟩ 1 1).points) =
      .error "No suitable location matches found" := by
    rw [specJointBestEstimate_eq_error_iff, List.filter_eq_nil_iff]
    intro ip hip
    simp only [decide_eq_true_eq]
    have hip' : ip ∈ intersectionPoints (generateShadowFinderGrid altC ⟨some 0⟩ 1 1)
        (generateShadowFinderGrid altC ⟨some 1⟩ 1 1) := hip
    obtain ⟨hcell, _, _, h2ne, _, _, hcomb⟩ :=
      intersection_grid_forward altC ⟨some 0⟩ ⟨some 1⟩ 1 1 1 1 ip hip'
    have hlat0 : ip.lat = 0 := by
      by_contra hne0
      rw [hBother ip.lat ip.lng hne0] at h2ne
      exact h2ne (pointLikelihood_of_nonpos _ _ _ (by norm_num))
    rw [hlat0, hA0 ip.lng, hLar] at hcomb
    rintro ⟨_, hle⟩
    rw [hcomb] at hle
    have h3 := le_trans (le_max_left (3/25 : ℝ)
      (pointLikelihood (altC ⟨some 1⟩ 0 ip.lng) 1 1)) hle
    norm_num at h3
  have hok1 : ∃ est, estimateBestLocation (analysisResultOf altC ⟨some 0⟩ 1 1) =
      .ok est := by
    rw [estimateBestLocation_isOk_iff, mainBandOf_ne_nil_iff]
    refine ⟨⟨-60, -180, pointLikelihood (altC ⟨some 0⟩ (-60) (-180)) 1 1⟩, ?_, ?_⟩
    · show _ ∈ generateShadowFinderGrid altC ⟨some 0⟩ 1 1
      rw [mem_generateShadowFinderGrid]
      refine ⟨0, by norm_num, 0, by norm_num, ?_⟩
      simp [gridCellPoint]
    · show 0 ≤ pointLikelihood (altC ⟨some 0⟩ (-60) (-180)) 1 1 ∧
        pointLikelihood (altC ⟨some 0⟩ (-60) (-180)) 1 1 ≤ 0.1
      rw [hA60, hLpi]
      norm_num
  have hok2 : ∃ est, estimateBestLocation (analysisResultOf altC ⟨some 1⟩ 1 1) =
      .ok est := by
    rw [estimateBestLocation_isOk_iff, mainBandOf_ne_nil_iff]
    refine ⟨⟨0, -180, pointLikelihood (altC ⟨some 1⟩ 0 (-180)) 1 1⟩, ?_, ?_⟩
    · show _ ∈ generateShadowFinderGrid altC ⟨some 1⟩ 1 1
      rw [mem_generateShadowFinderGrid]
      refine ⟨120, by norm_num, 0, by norm_num, ?_⟩
      simp [gridCellPoint]
      norm_num
    · show 0 ≤ pointLikelihood (altC ⟨some 1⟩ 0 (-180)) 1 1 ∧
        pointLikelihood (altC ⟨some 1⟩ 0 (-180)) 1 1 ≤ 0.1
      rw [hB0, hLpi]
      norm_num
  refine ⟨herr, ?_, ?_⟩
  · obtain ⟨est, hest⟩ := hok1
    rw [show (twoPhotoAnalysis (analysisResultOf altC ⟨some 0⟩ 1 1)
        (analysisResultOf altC ⟨some 1⟩ 1 1)).1 =
      estimateBestLocation (analysisResultOf altC ⟨some 0⟩ 1 1) from rfl, hest, herr]
    simp
  · obtain ⟨est, hest⟩ := hok2
    rw [show (twoPhotoAnalysis (analysisResultOf altC ⟨some 0⟩ 1 1)
        (analysisResultOf altC ⟨some 1⟩ 1 1)).2.1 =
      estimateBestLocation (analysisResultOf altC ⟨some 1⟩ 1 1) from rfl, hest, herr]
    simp

end ShadowTrace
